import Mathlib

/-!
Verification of the WhisperSTT JNI binding layer
(`src/app/src/main/cpp/whisper_jni.cpp`).

The binding is a single-model transcription session manager: a global
`whisper_context*` handle plus an atomic `g_whisper_initialized` flag,
both guarded by one mutex.  The inference engine (whisper.cpp) is
external: it is modelled as an oracle supplying, for `loadModel`, the
(possibly null) new handle and, for the transcription entry points, a
status code together with the ordered list of decoded text segments
(each possibly a null pointer).

JNI marshalling outcomes (`GetStringUTFChars` / `GetFloatArrayElements`
/ the vector copy) are likewise inputs to the model, since the code
branches on their success.
-/

/-- The session state: the global handle `g_whisper` (`none` = `nullptr`,
`some h` an opaque live context) and the flag `g_whisper_initialized`
(whisper_jni.cpp lines 15-17). -/
structure SessionState where
  handle : Option Nat
  initialized : Bool
deriving DecidableEq, Repr

/-- The state at process start: `g_whisper = nullptr`,
`g_whisper_initialized{false}`. -/
def initialState : SessionState := { handle := none, initialized := false }

/-- Entry point `Java_com_hiclone_whisperstt_WhisperSTT_isModelLoaded`
(lines 422-428): returns `g_whisper != nullptr && g_whisper_initialized`
under the mutex; the body contains no write to either global, which the
embedding records by returning the state unchanged. -/
def isModelLoaded (s : SessionState) : Bool × SessionState :=
  (s.handle.isSome && s.initialized, s)

/-- Entry point `Java_com_hiclone_whisperstt_WhisperSTT_loadModel` (lines 22-57).
`pathOk` is whether `GetStringUTFChars` on the model path succeeded
(line 24); `engineResult` is what
`whisper_init_from_file_with_params` returns (line 45).  The code:
on path failure return `JNI_FALSE` at once (state untouched); else,
under the mutex, free any existing handle (nulling it and clearing the
flag, lines 35-39), assign the engine result to `g_whisper`, and
return false if it is null, otherwise set the flag and return true. -/
def loadModel (pathOk : Bool) (engineResult : Option Nat) (s : SessionState) :
    Bool × SessionState :=
  if !pathOk then (false, s)
  else
    let s1 : SessionState :=
      if s.handle.isSome then { handle := none, initialized := false } else s
    let s2 : SessionState := { s1 with handle := engineResult }
    if s2.handle.isNone then (false, s2)
    else (true, { s2 with initialized := true })

/-- Entry point `Java_com_hiclone_whisperstt_WhisperSTT_releaseModel` (lines 408-420):
under the mutex, if `g_whisper != nullptr` then `whisper_free` it, null
it and clear the flag; otherwise do nothing. -/
def releaseModel (s : SessionState) : SessionState :=
  if s.handle.isSome then { handle := none, initialized := false } else s

/-- Micro-step granularity of the teardown code, for the ordering claim
about flag-clear versus free.  The three statements of the teardown
block are `whisper_free(g_whisper)`, `g_whisper = nullptr`,
`g_whisper_initialized = false` (lines 36-38 inside `loadModel` and
lines 415-417 inside `releaseModel`, identical in both). -/
inductive TeardownStep where
  | freeHandle
  | nullHandle
  | clearFlag
deriving DecidableEq, Repr

/-- Session state enriched with whether the free of the current handle
has already begun, to observe intermediate points of the teardown. -/
structure TraceState where
  handle : Option Nat
  freed : Bool
  initialized : Bool
deriving DecidableEq, Repr

/-- Effect of one teardown statement on the enriched state. -/
def applyStep (st : TeardownStep) (s : TraceState) : TraceState :=
  match st with
  | TeardownStep.freeHandle => { s with freed := true }
  | TeardownStep.nullHandle => { s with handle := none }
  | TeardownStep.clearFlag => { s with initialized := false }

/-- The teardown statements in source order (free, then null, then
clear the flag) — the same sequence at both teardown sites
(whisper_jni.cpp lines 36-38 and 415-417). -/
def teardownSteps : List TeardownStep :=
  [TeardownStep.freeHandle, TeardownStep.nullHandle, TeardownStep.clearFlag]

/-- State after the first `k` statements of the teardown block. -/
def runTeardown (k : Nat) (s : TraceState) : TraceState :=
  (teardownSteps.take k).foldl (fun a st => applyStep st a) s

/-- Greedy-sampling decode parameters: `wparams.greedy.best_of`. -/
structure WhisperGreedyParams where
  best_of : Nat
deriving DecidableEq, Repr

/-- Beam-search decode parameters: `wparams.beam_search.beam_size`. -/
structure WhisperBeamSearchParams where
  beam_size : Nat
deriving DecidableEq, Repr

/-- The fields of `whisper_full_params` that the binding assigns in at
least one entry point, plus `initial_prompt`.  Fractional thresholds
are modelled as exact rationals.  Fields the binding never touches are
omitted; an abstract base record stands for the engine defaults
returned by `whisper_full_default_params(WHISPER_SAMPLING_GREEDY)`. -/
structure WhisperFullParams where
  print_realtime : Bool
  print_progress : Bool
  print_timestamps : Bool
  print_special : Bool
  translate : Bool
  language : String
  n_threads : Nat
  offset_ms : Nat
  duration_ms : Nat
  n_max_text_ctx : Nat
  suppress_blank : Bool
  suppress_nst : Bool
  temperature : ℚ
  temperature_inc : ℚ
  no_speech_thold : ℚ
  logprob_thold : ℚ
  entropy_thold : ℚ
  beam_search : WhisperBeamSearchParams
  greedy : WhisperGreedyParams
  audio_ctx : Nat
  token_timestamps : Bool
  split_on_word : Bool
  initial_prompt : Option String
deriving DecidableEq, Repr

/-- Parameter assignments of the default-profile entry point
`transcribe` (lines 104-133), applied to the engine default bundle
`d`. -/
def defaultParams (d : WhisperFullParams) : WhisperFullParams :=
  { d with
    print_realtime := false
    print_progress := false
    print_timestamps := false
    print_special := false
    translate := false
    language := "en"
    n_threads := 4
    offset_ms := 0
    duration_ms := 0
    n_max_text_ctx := 128
    suppress_blank := true
    suppress_nst := true
    temperature := 0
    temperature_inc := 0
    no_speech_thold := 0.4
    logprob_thold := -1.5
    entropy_thold := 3
    beam_search := { beam_size := 1 }
    greedy := { best_of := 1 }
    audio_ctx := 0
    token_timestamps := false
    split_on_word := true }

/-- Parameter assignments of `transcribeWithPrompt` (lines 229-260):
like the default profile but with `n_max_text_ctx = 256`,
`logprob_thold = -1.2`, no assignment to `offset_ms`/`duration_ms`,
and `initial_prompt` set iff the marshalled prompt string is non-null
with `strlen > 0` (line 258). -/
def withPromptParams (d : WhisperFullParams) (prompt_str : Option String) :
    WhisperFullParams :=
  let w : WhisperFullParams :=
    { d with
      print_realtime := false
      print_progress := false
      print_timestamps := false
      print_special := false
      translate := false
      language := "en"
      n_threads := 4
      n_max_text_ctx := 256
      suppress_blank := true
      suppress_nst := true
      temperature := 0
      temperature_inc := 0
      no_speech_thold := 0.4
      logprob_thold := -1.2
      entropy_thold := 3
      beam_search := { beam_size := 1 }
      greedy := { best_of := 1 }
      audio_ctx := 0
      token_timestamps := false
      split_on_word := true }
  match prompt_str with
  | some p => if 0 < p.utf8ByteSize then { w with initial_prompt := some p } else w
  | none => w

/-- Parameter assignments of `transcribeRealtime` (lines 349-372):
`n_max_text_ctx = 64`, `no_speech_thold = 0.3`, `logprob_thold = -2`,
`entropy_thold = 3.5`, `audio_ctx = 256`; it assigns neither
`temperature_inc`, `offset_ms`, `duration_ms` nor `split_on_word`. -/
def realtimeParams (d : WhisperFullParams) : WhisperFullParams :=
  { d with
    print_realtime := false
    print_progress := false
    print_timestamps := false
    print_special := false
    translate := false
    language := "en"
    n_threads := 4
    n_max_text_ctx := 64
    suppress_blank := true
    suppress_nst := true
    temperature := 0
    no_speech_thold := 0.3
    logprob_thold := -2
    entropy_thold := 3.5
    beam_search := { beam_size := 1 }
    greedy := { best_of := 1 }
    audio_ctx := 256
    token_timestamps := false }

/-- A concrete stand-in for the engine default parameter bundle, used
only to evaluate the profile builders at a specific base record. -/
def engineDefaults : WhisperFullParams :=
  { print_realtime := false
    print_progress := false
    print_timestamps := false
    print_special := false
    translate := false
    language := "auto"
    n_threads := 0
    offset_ms := 0
    duration_ms := 0
    n_max_text_ctx := 16384
    suppress_blank := true
    suppress_nst := false
    temperature := 0
    temperature_inc := 0.2
    no_speech_thold := 0.6
    logprob_thold := -1
    entropy_thold := 2.4
    beam_search := { beam_size := 5 }
    greedy := { best_of := 5 }
    audio_ctx := 0
    token_timestamps := false
    split_on_word := false
    initial_prompt := none }

/-- Membership in the trim set `" \t\n\r"` used by
`find_first_not_of`/`find_last_not_of` (lines 150-152, written in the
source order space, tab, newline, carriage return). -/
def isTrimChar (c : Char) : Bool :=
  c = ' ' || c = '\t' || c = '\n' || c = '\r'

/-- The per-segment trim (lines 150-153): `find_first_not_of(" \t\n\r")`
returning npos means the segment is skipped (`none`); otherwise the
substring from the first to the last character outside the trim set. -/
def trimSegment (text : String) : Option String :=
  let front := text.toList.dropWhile isTrimChar
  if front.isEmpty then none
  else some (String.mk ((front.reverse.dropWhile isTrimChar).reverse))

/-- The per-segment decision of the `transcribe` /
`transcribeWithPrompt` extraction loops (lines 146-163 and 278-295,
identical): skip null segment text, trim, then keep the trimmed text
iff it is non-empty, differs from `"[BLANK_AUDIO]"`, and
`find_first_not_of(" ")` finds a non-space character. -/
def keepSegment (oseg : Option String) : Option String :=
  match oseg with
  | none => none
  | some text =>
    match trimSegment text with
    | none => none
    | some t =>
      if !t.isEmpty && (t != "[BLANK_AUDIO]") &&
          t.toList.any (fun c => c != ' ') then some t
      else none

/-- The per-segment decision of the `transcribeRealtime` extraction
loop (lines 386-400): skip null segment text, trim, keep the trimmed
text iff it is non-empty — no `"[BLANK_AUDIO]"` test. -/
def keepSegmentRT (oseg : Option String) : Option String :=
  match oseg with
  | none => none
  | some text =>
    match trimSegment text with
    | none => none
    | some t => if !t.isEmpty then some t else none

/-- The accumulation of the extraction loops: append a space separator
only when the accumulator is non-empty (lines 159-162). -/
def joinStep (keep : Option String → Option String)
    (acc : String) (oseg : Option String) : String :=
  match keep oseg with
  | none => acc
  | some t => if acc.isEmpty then t else acc ++ " " ++ t

/-- The full extraction loop of `transcribe` and
`transcribeWithPrompt` over the engine's segment list
(lines 143-166 / 275-298). -/
def extractTranscription (segs : List (Option String)) : String :=
  segs.foldl (joinStep keepSegment) ""

/-- The full extraction loop of `transcribeRealtime`
(lines 383-403). -/
def extractTranscriptionRT (segs : List (Option String)) : String :=
  segs.foldl (joinStep keepSegmentRT) ""

/-- Spec-side trim: remove leading and trailing whitespace.  Stated
with `Char.isWhitespace` (whose character set `' '`, `'\t'`, `'\r'`,
`'\n'` is exactly the trim set of the code). -/
def specTrim (text : String) : String :=
  String.mk
    (((text.toList.dropWhile Char.isWhitespace).reverse.dropWhile
      Char.isWhitespace).reverse)

/-- Spec-side per-segment filter, following the spec text: keep the
whitespace-trimmed segment unless it is only whitespace or is the
`"[BLANK_AUDIO]"` marker (null segment pointers contribute nothing). -/
def specKeepSegment (oseg : Option String) : Option String :=
  match oseg with
  | none => none
  | some text =>
    let t := specTrim text
    if t = "" ∨ t = "[BLANK_AUDIO]" then none else some t

/-- Spec-side per-segment filter for the realtime loop: keep the
whitespace-trimmed segment unless it is only whitespace. -/
def specKeepSegmentRT (oseg : Option String) : Option String :=
  match oseg with
  | none => none
  | some text =>
    let t := specTrim text
    if t = "" then none else some t

/-- Spec-side join: concatenation in order, separated by a single
space. -/
def joinSpace : List String → String
  | [] => ""
  | [t] => t
  | t :: ts => t ++ " " ++ joinSpace ts

/-- The segment list of the spec's worked example. -/
def exampleSegments : List (Option String) :=
  [some (" hello "), some (""), some ("[BLANK_AUDIO]"), some ("world  ")]

/-- The sentinel returned by every transcription entry point when the
session is not loaded (lines 65, 183, 314). -/
def errorNotLoaded : String := "ERROR: Model not loaded"

/-- The sentinel returned when the post-lock re-check finds the model
gone (lines 100, 225, 345). -/
def errorBecameInvalid : String := "ERROR: Model became invalid"

/-- One oracle outcome of the engine's `whisper_full` call: the status
code and the segment list the segment accessors would then yield
(`none` entries model null `whisper_full_get_segment_text` results). -/
structure EngineRun where
  status : Int
  segments : List (Option String)
deriving DecidableEq, Repr

/-- Output string of `Java_com_hiclone_whisperstt_WhisperSTT_transcribe`
(lines 61-175).  `audioLen` is `GetArrayLength`; `getElemsOk` whether
`GetFloatArrayElements` returned non-null; `copyOk` whether the vector
copy did not throw; `run` the engine oracle.  Branches in source
order: unloaded sentinel, non-positive length, marshalling failures,
post-lock re-check (same condition, hence never taken here), non-zero
status, then extraction with the `length() < 2` suppression (the
`std::string` length being its byte count). -/
def transcribeOut (s : SessionState) (audioLen : Int)
    (getElemsOk copyOk : Bool) (run : EngineRun) : String :=
  if !(s.initialized && s.handle.isSome) then errorNotLoaded
  else if audioLen ≤ 0 then ("")
  else if !getElemsOk then ("")
  else if !copyOk then ("")
  else if !(s.initialized && s.handle.isSome) then errorBecameInvalid
  else if run.status != 0 then ("")
  else
    let t := extractTranscription run.segments
    if t.isEmpty || t.utf8ByteSize < 2 then ("") else t

/-- Entry point `transcribe` as a state transformer: its body contains no write to
`g_whisper` or `g_whisper_initialized`, so the state passes through. -/
def transcribe (s : SessionState) (audioLen : Int)
    (getElemsOk copyOk : Bool) (run : EngineRun) : String × SessionState :=
  (transcribeOut s audioLen getElemsOk copyOk run, s)

/-- Output string of `transcribeWithPrompt` (lines 178-307).  The
prompt (`none` = null jstring or failed `GetStringUTFChars`) is
forwarded to the engine through `withPromptParams` and does not enter
the output path; the branch structure and extraction loop are those of
`transcribe` with the same `length() < 2` suppression. -/
def transcribeWithPromptOut (s : SessionState) (audioLen : Int)
    (getElemsOk copyOk : Bool) (prompt_str : Option String)
    (run : EngineRun) : String :=
  if !(s.initialized && s.handle.isSome) then errorNotLoaded
  else if audioLen ≤ 0 then ("")
  else if !getElemsOk then ("")
  else if !copyOk then ("")
  else if !(s.initialized && s.handle.isSome) then errorBecameInvalid
  else if run.status != 0 then ("")
  else
    let t := extractTranscription run.segments
    if t.isEmpty || t.utf8ByteSize < 2 then ("") else t

/-- Entry point `transcribeWithPrompt` as a state transformer (no state write). -/
def transcribeWithPrompt (s : SessionState) (audioLen : Int)
    (getElemsOk copyOk : Bool) (prompt_str : Option String)
    (run : EngineRun) : String × SessionState :=
  (transcribeWithPromptOut s audioLen getElemsOk copyOk prompt_str run, s)

/-- Output string of `transcribeRealtime` (lines 309-406): same guard
chain, realtime extraction loop, and no minimum-length suppression —
the joined text is returned as-is (line 405). -/
def transcribeRealtimeOut (s : SessionState) (audioLen : Int)
    (getElemsOk copyOk : Bool) (run : EngineRun) : String :=
  if !(s.initialized && s.handle.isSome) then errorNotLoaded
  else if audioLen ≤ 0 then ("")
  else if !getElemsOk then ("")
  else if !copyOk then ("")
  else if !(s.initialized && s.handle.isSome) then errorBecameInvalid
  else if run.status != 0 then ("")
  else extractTranscriptionRT run.segments

/-- Entry point `transcribeRealtime` as a state transformer (no state write). -/
def transcribeRealtime (s : SessionState) (audioLen : Int)
    (getElemsOk copyOk : Bool) (run : EngineRun) : String × SessionState :=
  (transcribeRealtimeOut s audioLen getElemsOk copyOk run, s)

theorem isTrimChar_eq (c : Char) : isTrimChar c = c.isWhitespace := by
  simp only [isTrimChar, Char.isWhitespace]
  by_cases h1 : c = ' ' <;> by_cases h2 : c = '\t' <;>
    by_cases h3 : c = '\n' <;> by_cases h4 : c = '\r' <;>
    simp [h1, h2, h3, h4]

theorem dropWhile_head_false {p : Char → Bool} :
    ∀ {l : List Char} {a : Char} {t : List Char},
    List.dropWhile p l = a :: t → p a = false := by
  intro l
  induction l with
  | nil => intro a t h; cases h
  | cons x xs ih =>
    intro a t h
    rw [List.dropWhile_cons] at h
    by_cases hx : p x = true
    · rw [if_pos hx] at h; exact ih h
    · rw [if_neg hx] at h
      cases h
      exact Bool.eq_false_iff.mpr hx

theorem trimSegment_eq_specTrim (text : String) :
    trimSegment text =
      if specTrim text = "" then none else some (specTrim text) := by
  have hfun : isTrimChar = Char.isWhitespace := funext isTrimChar_eq
  unfold trimSegment specTrim
  rw [hfun]
  cases h : text.toList.dropWhile Char.isWhitespace with
  | nil => simp [h]
  | cons a l =>
    have ha : Char.isWhitespace a = false := dropWhile_head_false h
    have hback : (a :: l).reverse.dropWhile Char.isWhitespace ≠ [] := by
      intro hnil
      rw [List.dropWhile_eq_nil_iff] at hnil
      have := hnil a (by simp)
      rw [ha] at this
      exact absurd this (by simp)
    simp only [h, List.isEmpty_cons]
    rw [if_neg (by simp)]
    rw [if_neg ?_]
    intro hss
    apply hback
    have : ((a :: l).reverse.dropWhile Char.isWhitespace).reverse = [] := by
      have := congrArg String.toList hss
      exact this
    simpa using this

theorem specTrim_isEmpty_false {text : String} (h : specTrim text ≠ "") :
    (specTrim text).isEmpty = false := by
  rw [Bool.eq_false_iff]
  intro hT
  exact h ((String.isEmpty_iff _).mp hT)

theorem specTrim_any {text : String} (h : specTrim text ≠ "") :
    (specTrim text).toList.any (fun c => c != ' ') = true := by
  unfold specTrim at h ⊢
  cases hd : (text.toList.dropWhile Char.isWhitespace).reverse.dropWhile
      Char.isWhitespace with
  | nil => rw [hd] at h; exact absurd rfl h
  | cons b bs =>
    have hb : Char.isWhitespace b = false := dropWhile_head_false hd
    rw [List.any_eq_true]
    refine ⟨b, ?_, ?_⟩
    · simp
    · simp only [bne_iff_ne, ne_eq]
      intro hbeq
      rw [hbeq] at hb
      exact absurd hb (by decide)

theorem keepSegment_eq_spec (oseg : Option String) :
    keepSegment oseg = specKeepSegment oseg := by
  cases oseg with
  | none => rfl
  | some text =>
    simp only [keepSegment, specKeepSegment]
    rw [trimSegment_eq_specTrim]
    by_cases h : specTrim text = ""
    · simp [h]
    · rw [if_neg h]
      have h1 : (specTrim text).isEmpty = false := specTrim_isEmpty_false h
      have h2 : (specTrim text).toList.any (fun c => c != ' ') = true :=
        specTrim_any h
      by_cases hm : specTrim text = "[BLANK_AUDIO]"
      · simp [h1, h2, hm]
      · simp [h1, hm, h]
        simpa using h2

theorem keepSegmentRT_eq_spec (oseg : Option String) :
    keepSegmentRT oseg = specKeepSegmentRT oseg := by
  cases oseg with
  | none => rfl
  | some text =>
    simp only [keepSegmentRT, specKeepSegmentRT]
    rw [trimSegment_eq_specTrim]
    by_cases h : specTrim text = ""
    · simp [h]
    · rw [if_neg h]
      simp [specTrim_isEmpty_false h, h]

theorem append_sep_isEmpty_false (a t : String) : (a ++ " " ++ t).isEmpty = false := by
  rw [Bool.eq_false_iff]
  intro hT
  have h1 : a ++ " " ++ t = "" := (String.isEmpty_iff _).mp hT
  have h2 := congrArg String.length h1
  simp [String.length_append] at h2
  exact absurd h2.1.2 (by decide)

theorem keepSegment_some_isEmpty_false :
    ∀ (o : Option String) (t : String), keepSegment o = some t → t.isEmpty = false := by
  intro o t h
  cases o with
  | none => cases h
  | some text =>
    cases htr : trimSegment text with
    | none => simp [keepSegment, htr] at h
    | some u =>
      simp only [keepSegment, htr] at h
      by_cases hc : (!u.isEmpty && (u != "[BLANK_AUDIO]") &&
          u.toList.any fun c => c != ' ') = true
      · rw [if_pos hc] at h
        injection h with h
        subst h
        simp only [Bool.and_eq_true] at hc
        simpa using hc.1.1
      · rw [if_neg hc] at h; cases h

theorem keepSegmentRT_some_isEmpty_false :
    ∀ (o : Option String) (t : String), keepSegmentRT o = some t → t.isEmpty = false := by
  intro o t h
  cases o with
  | none => cases h
  | some text =>
    cases htr : trimSegment text with
    | none => simp [keepSegmentRT, htr] at h
    | some u =>
      simp only [keepSegmentRT, htr] at h
      by_cases hc : (!u.isEmpty) = true
      · rw [if_pos hc] at h
        injection h with h
        subst h
        simpa using hc
      · rw [if_neg hc] at h; cases h

theorem foldl_joinStep_ne (keep : Option String → Option String) :
    ∀ (segs : List (Option String)) (acc : String), acc.isEmpty = false →
    segs.foldl (joinStep keep) acc =
      (match segs.filterMap keep with
       | [] => acc
       | l => acc ++ " " ++ joinSpace l) := by
  intro segs
  induction segs with
  | nil => intro acc _; rfl
  | cons o os ih =>
    intro acc hacc
    rw [List.foldl_cons, List.filterMap_cons]
    cases hko : keep o with
    | none => simp only [joinStep, hko]; exact ih acc hacc
    | some t =>
      simp only [joinStep, hko, hacc, Bool.false_eq_true, if_false]
      rw [ih (acc ++ " " ++ t) (append_sep_isEmpty_false acc t)]
      cases os.filterMap keep with
      | nil => rfl
      | cons x xs =>
        show (acc ++ " " ++ t) ++ " " ++ joinSpace (x :: xs)
            = acc ++ " " ++ joinSpace (t :: x :: xs)
        rw [show joinSpace (t :: x :: xs) = t ++ " " ++ joinSpace (x :: xs) from rfl]
        simp [String.append_assoc]

theorem foldl_joinStep (keep : Option String → Option String)
    (hk : ∀ o t, keep o = some t → t.isEmpty = false) :
    ∀ segs : List (Option String),
    segs.foldl (joinStep keep) "" = joinSpace (segs.filterMap keep) := by
  intro segs
  induction segs with
  | nil => rfl
  | cons o os ih =>
    rw [List.foldl_cons, List.filterMap_cons]
    cases hko : keep o with
    | none => simp only [joinStep, hko]; exact ih
    | some t =>
      simp only [joinStep, hko]
      rw [show (if ("" : String).isEmpty then t else ("" ++ " " ++ t)) = t from rfl]
      rw [foldl_joinStep_ne keep os t (hk o t hko)]
      cases os.filterMap keep with
      | nil => rfl
      | cons x xs => rfl

theorem extractTranscription_eq_spec (segs : List (Option String)) :
    extractTranscription segs = joinSpace (segs.filterMap specKeepSegment) := by
  unfold extractTranscription
  rw [foldl_joinStep keepSegment keepSegment_some_isEmpty_false segs]
  rw [funext keepSegment_eq_spec]

theorem extractTranscriptionRT_eq_spec (segs : List (Option String)) :
    extractTranscriptionRT segs = joinSpace (segs.filterMap specKeepSegmentRT) := by
  unfold extractTranscriptionRT
  rw [foldl_joinStep keepSegmentRT keepSegmentRT_some_isEmpty_false segs]
  rw [funext keepSegmentRT_eq_spec]

theorem releaseModel_handle_none (s : SessionState) :
    (releaseModel s).handle = none := by
  unfold releaseModel
  by_cases h : s.handle.isSome = true
  · rw [if_pos h]
  · rw [if_neg h]
    cases hs : s.handle with
    | none => rfl
    | some v => rw [hs] at h; exact absurd rfl h

theorem releaseModel_of_handle_none {s : SessionState} (h : s.handle = none) :
    releaseModel s = s := by
  unfold releaseModel
  rw [h]
  rfl

theorem releaseModel_iterate_of_handle_none :
    ∀ (n : Nat) (s : SessionState), s.handle = none → releaseModel^[n] s = s := by
  intro n
  induction n with
  | zero => intro s _; rfl
  | succ m ih =>
    intro s h
    rw [Function.iterate_succ_apply, releaseModel_of_handle_none h]
    exact ih s h

/-- Claim C1: on every teardown path (Release, and the handle replacement
inside Load), the claim asserts the loaded flag is cleared strictly before
the free.  Counterexample: starting teardown from a loaded state, after the
first teardown statement (`whisper_free`) the free has begun while
`g_whisper_initialized` is still true — the code frees first and clears the
flag last. -/
theorem C1_counterexample :
    (runTeardown 1 { handle := some 1, freed := false, initialized := true }).freed = true ∧
    (runTeardown 1 { handle := some 1, freed := false, initialized := true }).initialized = true :=
  ⟨rfl, rfl⟩

/-- Claim C1 (amended): on both teardown paths the statements run in the
order free, null, clear-flag, all inside one mutex region: after the free
(step 1) and after the nulling (step 2) the flag is still true, and only
the final statement clears it; teardown ends with the flag false and the
handle null. -/
theorem C1_amended : ∀ h : Nat,
    (runTeardown 1 { handle := some h, freed := false, initialized := true }).freed = true ∧
    (runTeardown 1 { handle := some h, freed := false, initialized := true }).initialized = true ∧
    (runTeardown 2 { handle := some h, freed := false, initialized := true }).initialized = true ∧
    runTeardown 3 { handle := some h, freed := false, initialized := true } =
      { handle := none, freed := true, initialized := false } := by
  intro h
  exact ⟨rfl, rfl, rfl, rfl⟩

/-- Claim C2: the claim states that on failure to obtain the path string,
Load returns false, leaves the session unloaded with a null handle, and has
released any prior handle.  Counterexample: with a loaded session, a Load
whose path marshalling fails returns false with the session untouched — the
prior handle is still present and still marked loaded. -/
theorem C2_counterexample :
    loadModel false none { handle := some 7, initialized := true } =
      (false, { handle := some 7, initialized := true }) ∧
    (isModelLoaded { handle := some 7, initialized := true }).1 = true ∧
    ({ handle := some 7, initialized := true } : SessionState).handle ≠ none :=
  ⟨rfl, rfl, by decide⟩

/-- Claim C2 (amended): when the path string is obtained, Load returns true
and marks the session loaded iff the engine returns a non-null handle, and
on a null engine handle it returns false leaving the session unloaded with
a null handle (any prior handle having been freed); when the path string
cannot be obtained, Load returns false with the session state untouched, so
a prior handle is neither released nor unloaded. -/
theorem C2_amended :
    (∀ (s : SessionState) (h : Nat),
        loadModel true (some h) s = (true, { handle := some h, initialized := true })) ∧
    (∀ s : SessionState, (loadModel true none s).1 = false ∧
        (loadModel true none s).2.handle = none ∧
        (isModelLoaded (loadModel true none s).2).1 = false) ∧
    (∀ s : SessionState, s.handle.isSome = true →
        loadModel true none s = (false, { handle := none, initialized := false })) ∧
    (∀ (s : SessionState) (r : Option Nat), loadModel false r s = (false, s)) := by
  refine ⟨?_, ?_, ?_, ?_⟩
  · intro s h
    unfold loadModel
    by_cases hs : s.handle.isSome = true <;> simp [hs]
  · intro s
    unfold loadModel
    by_cases hs : s.handle.isSome = true <;> simp [hs, isModelLoaded]
  · intro s hs
    unfold loadModel
    simp [hs]
  · intro s r
    unfold loadModel
    simp

/-- Claim C2 witness: instantiation of the amended theorem at a loaded
session whose reload fails at the engine. -/
theorem C2_witness :
    loadModel true none { handle := some 2, initialized := true } =
      (false, { handle := none, initialized := false }) :=
  C2_amended.2.2.1 { handle := some 2, initialized := true } rfl

/-- Claim C3: the claim asserts that every profile, Realtime included,
drops `"[BLANK_AUDIO]"` segments, so that the example segment list yields
`"hello world"`.  Counterexample: the Realtime extraction loop has no
blank-marker test and yields `"hello [BLANK_AUDIO] world"` on that very
list. -/
theorem C3_counterexample :
    extractTranscriptionRT exampleSegments = "hello [BLANK_AUDIO] world" ∧
    "hello [BLANK_AUDIO] world" ≠ "hello world" :=
  ⟨by decide, by decide⟩

/-- Claim C3 (amended): for the Default and WithPrompt profiles the result
is the in-order single-space concatenation of the whitespace-trimmed
segments with whitespace-only and `"[BLANK_AUDIO]"` segments dropped, so
the example list yields `"hello world"`; the Realtime profile joins the
whitespace-trimmed non-empty segments the same way but keeps the
`"[BLANK_AUDIO]"` marker, yielding `"hello [BLANK_AUDIO] world"` on the
example list. -/
theorem C3_amended :
    (∀ segs : List (Option String),
        extractTranscription segs = joinSpace (segs.filterMap specKeepSegment)) ∧
    (∀ segs : List (Option String),
        extractTranscriptionRT segs = joinSpace (segs.filterMap specKeepSegmentRT)) ∧
    extractTranscription exampleSegments = "hello world" ∧
    extractTranscriptionRT exampleSegments = "hello [BLANK_AUDIO] world" :=
  ⟨extractTranscription_eq_spec, extractTranscriptionRT_eq_spec, by decide, by decide⟩

/-- Claim C4: the claim asserts that WithPrompt with an empty or absent
prompt produces exactly the same engine invocation as Default.
Counterexample: at a concrete engine-default bundle, the WithPrompt
parameter record with an absent prompt differs from the Default one (the
text-context caps 256 and 128 disagree, as do the log-probability
thresholds). -/
theorem C4_counterexample :
    withPromptParams engineDefaults none ≠ defaultParams engineDefaults ∧
    (withPromptParams engineDefaults none).n_max_text_ctx = 256 ∧
    (defaultParams engineDefaults).n_max_text_ctx = 128 :=
  ⟨by decide, by decide, by decide⟩

/-- Claim C4 (amended): WithPrompt passes a non-empty prompt to the engine
call through `initial_prompt`, and with an empty or absent prompt it leaves
`initial_prompt` at the engine default exactly as Default does; its result
post-processing is identical to Default given the same engine output.  Its
parameter bundle however always differs from Default (text-context cap 256
versus 128, log-probability threshold -1.2 versus -1.5), so the engine
invocation is not the same. -/
theorem C4_amended :
    (∀ (d : WhisperFullParams) (p : String), 0 < p.utf8ByteSize →
        (withPromptParams d (some p)).initial_prompt = some p) ∧
    (∀ d : WhisperFullParams, withPromptParams d none = withPromptParams d (some (""))) ∧
    (∀ (d : WhisperFullParams),
        (withPromptParams d none).initial_prompt = d.initial_prompt ∧
        (defaultParams d).initial_prompt = d.initial_prompt) ∧
    (∀ (d : WhisperFullParams) (p : Option String),
        (withPromptParams d p).n_max_text_ctx = 256 ∧
        (defaultParams d).n_max_text_ctx = 128 ∧
        (withPromptParams d p).logprob_thold = -1.2 ∧
        (defaultParams d).logprob_thold = -1.5) ∧
    (∀ (s : SessionState) (len : Int) (g c : Bool) (p : Option String) (run : EngineRun),
        transcribeWithPrompt s len g c p run = transcribe s len g c run) := by
  refine ⟨?_, ?_, ?_, ?_, ?_⟩
  · intro d p hp
    simp only [withPromptParams]
    rw [if_pos hp]
  · intro d
    simp only [withPromptParams]
    rw [if_neg (by decide)]
  · intro d
    exact ⟨rfl, rfl⟩
  · intro d p
    cases p with
    | none => exact ⟨rfl, rfl, rfl, rfl⟩
    | some q =>
      simp only [withPromptParams]
      by_cases hq : 0 < q.utf8ByteSize <;> simp [hq, defaultParams]
  · intro s len g c p run
    rfl

/-- Claim C4 witness: instantiation of the amended theorem at a concrete
non-empty prompt. -/
theorem C4_witness :
    (withPromptParams engineDefaults (some ("medical"))).initial_prompt = some ("medical") :=
  C4_amended.1 engineDefaults ("medical") (by decide)

theorem loaded_guard_false {s : SessionState}
    (h : (isModelLoaded s).1 = true) :
    (!(s.initialized && s.handle.isSome)) = false := by
  simp only [isModelLoaded, Bool.and_eq_true] at h
  simp [h.1, h.2]

/-- Claim C5: the claim asserts that every Default/WithPrompt result whose
joined text has length below 2 — a single character included — is
suppressed.  Counterexample: the length the code tests is the byte count of
the joined UTF-8 string, so the single two-byte character `"é"` survives
unsuppressed. -/
theorem C5_counterexample :
    transcribeOut { handle := some 1, initialized := true } 4 true true
      { status := 0, segments := [some ("é")] } = "é" ∧
    ("é" : String).length = 1 ∧ ("é" : String) ≠ "" :=
  ⟨by decide, by decide, by decide⟩

/-- Claim C5 (amended): for the Default and WithPrompt profiles a joined
result is suppressed to the empty string exactly when its UTF-8 byte length
is below 2 — which covers every single ASCII character but not a single
multi-byte character; the Realtime profile applies no minimum-length
suppression and returns the joined text as-is. -/
theorem C5_amended :
    ∀ (s : SessionState) (len : Int) (p : Option String) (run : EngineRun),
    (isModelLoaded s).1 = true → 0 < len → run.status = 0 →
    (((extractTranscription run.segments).utf8ByteSize < 2 →
        transcribeOut s len true true run = "" ∧
        transcribeWithPromptOut s len true true p run = "") ∧
      (2 ≤ (extractTranscription run.segments).utf8ByteSize →
        transcribeOut s len true true run = extractTranscription run.segments ∧
        transcribeWithPromptOut s len true true p run =
          extractTranscription run.segments) ∧
      transcribeRealtimeOut s len true true run = extractTranscriptionRT run.segments) := by
  intro s len p run hload hlen hst
  have hg := loaded_guard_false hload
  have hlen2 : ¬(len ≤ 0) := by omega
  refine ⟨?_, ?_, ?_⟩
  · intro hb
    constructor <;>
      simp [transcribeOut, transcribeWithPromptOut, hg, hlen2, hst, hb]
  · intro hb
    have hbe : (extractTranscription run.segments).isEmpty = false := by
      rw [Bool.eq_false_iff]
      intro hT
      have he := (String.isEmpty_iff _).mp hT
      rw [he] at hb
      exact absurd hb (by decide)
    have hblt : ¬((extractTranscription run.segments).utf8ByteSize < 2) := by omega
    constructor <;>
      simp [transcribeOut, transcribeWithPromptOut, hg, hlen2, hst, hbe, hblt]
  · simp [transcribeRealtimeOut, hg, hlen2, hst]

/-- Claim C5 witness: instantiation of the amended theorem at a loaded
session and an engine run whose joined result is the single ASCII character
`"x"`, which is suppressed. -/
theorem C5_witness :
    transcribeOut { handle := some 1, initialized := true } 4 true true
      { status := 0, segments := [some ("x")] } = "" :=
  ((C5_amended { handle := some 1, initialized := true } 4 none
      { status := 0, segments := [some ("x")] } rfl (by omega) rfl).1 (by decide)).1

/-- Claim C6: the claim asserts the unloaded sentinel is distinct from any
legitimate transcription.  Counterexample: a loaded session whose engine
emits the segment `"ERROR: Model not loaded"` produces exactly the sentinel
string through the legitimate transcription path. -/
theorem C6_counterexample :
    transcribeOut { handle := some 1, initialized := true } 1 true true
      { status := 0, segments := [some ("ERROR: Model not loaded")] } =
      errorNotLoaded :=
  by decide

/-- Claim C6 (amended): for every session that is not loaded, every
transcription entry point returns the unloaded sentinel on every input —
empty buffer and failed marshalling included — and the sentinel differs
from the empty string; the sentinel is however not distinct from every
string the loaded transcription path can produce, since the engine may emit
that very text as a segment. -/
theorem C6_amended :
    ∀ (s : SessionState) (len : Int) (g c : Bool) (p : Option String) (run : EngineRun),
    (isModelLoaded s).1 = false →
    transcribeOut s len g c run = errorNotLoaded ∧
    transcribeWithPromptOut s len g c p run = errorNotLoaded ∧
    transcribeRealtimeOut s len g c run = errorNotLoaded ∧
    errorNotLoaded ≠ "" := by
  intro s len g c p run hload
  simp only [isModelLoaded, Bool.and_eq_false_iff] at hload
  have hg : (!(s.initialized && s.handle.isSome)) = true := by
    cases hload with
    | inl h => simp [h]
    | inr h => simp [h]
  refine ⟨?_, ?_, ?_, by decide⟩ <;>
    simp [transcribeOut, transcribeWithPromptOut, transcribeRealtimeOut, hg]

/-- Claim C6 witness: instantiation of the amended theorem at the freshly
constructed session and an empty buffer. -/
theorem C6_witness :
    transcribeOut initialState 0 true true { status := 0, segments := [] } =
      errorNotLoaded :=
  (C6_amended initialState 0 true true none { status := 0, segments := [] } rfl).1

/-- Claim C7: for a loaded session, a non-zero engine status makes every
transcription entry point return the empty string — which differs from both
sentinels — with the session state unchanged: the handle remains loaded for
subsequent calls. -/
theorem C7 :
    ∀ (s : SessionState) (len : Int) (p : Option String) (run : EngineRun),
    (isModelLoaded s).1 = true → 0 < len → run.status ≠ 0 →
    transcribe s len true true run = ("", s) ∧
    transcribeWithPrompt s len true true p run = ("", s) ∧
    transcribeRealtime s len true true run = ("", s) ∧
    (isModelLoaded s).1 = true ∧
    ("" : String) ≠ errorNotLoaded ∧ ("" : String) ≠ errorBecameInvalid := by
  intro s len p run hload hlen hst
  have hg := loaded_guard_false hload
  have hlen2 : ¬(len ≤ 0) := by omega
  have hst2 : (run.status != 0) = true := by simpa using hst
  refine ⟨?_, ?_, ?_, hload, by decide, by decide⟩ <;>
    simp [transcribe, transcribeWithPrompt, transcribeRealtime, transcribeOut,
      transcribeWithPromptOut, transcribeRealtimeOut, hg, hlen2, hst2]

/-- Claim C7 witness: instantiation at a loaded session and an engine run
with failing status. -/
theorem C7_witness :
    transcribe { handle := some 1, initialized := true } 3 true true
      { status := -6, segments := [] } = ("", { handle := some 1, initialized := true }) :=
  (C7 { handle := some 1, initialized := true } 3 none
      { status := -6, segments := [] } rfl (by omega) (by decide)).1

/-- Claim C8: the transcription entry points never mutate the handle or the
loaded flag — the embedding of each body writes neither global, so each
returns the session state it was given — and IsLoaded is likewise purely
observational. -/
theorem C8 :
    ∀ (s : SessionState) (len : Int) (g c : Bool) (p : Option String) (run : EngineRun),
    (transcribe s len g c run).2 = s ∧
    (transcribeWithPrompt s len g c p run).2 = s ∧
    (transcribeRealtime s len g c run).2 = s ∧
    (isModelLoaded s).2 = s := by
  intro s len g c p run
  exact ⟨rfl, rfl, rfl, rfl⟩

/-- Claim C9: Release on a session with a null handle (freshly constructed,
or after any failed load or release) is a no-op, any number of repetitions
included, and IsLoaded is false there; Release on a session with a live
handle frees and nulls it and clears the flag, after which IsLoaded is
false — indeed after at least one Release, from any state, IsLoaded is
false. -/
theorem C9 :
    (∀ (n : Nat) (s : SessionState), s.handle = none → releaseModel^[n] s = s) ∧
    (∀ s : SessionState, s.handle = none → (isModelLoaded s).1 = false) ∧
    (∀ s : SessionState, s.handle.isSome = true →
        releaseModel s = { handle := none, initialized := false } ∧
        (isModelLoaded (releaseModel s)).1 = false) ∧
    (∀ (n : Nat) (s : SessionState), 0 < n →
        (isModelLoaded (releaseModel^[n] s)).1 = false) := by
  refine ⟨releaseModel_iterate_of_handle_none, ?_, ?_, ?_⟩
  · intro s h
    simp [isModelLoaded, h]
  · intro s h
    have hr : releaseModel s = { handle := none, initialized := false } := by
      unfold releaseModel
      rw [if_pos h]
    exact ⟨hr, by rw [hr]; rfl⟩
  · intro n s hn
    cases n with
    | zero => exact absurd hn (by omega)
    | succ m =>
      rw [Function.iterate_succ_apply,
        releaseModel_iterate_of_handle_none m (releaseModel s) (releaseModel_handle_none s)]
      simp [isModelLoaded, releaseModel_handle_none s]

/-- Claim C9 witness: instantiation at a double release of the fresh
session and a release of a loaded session. -/
theorem C9_witness :
    releaseModel^[2] initialState = initialState ∧
    releaseModel { handle := some 3, initialized := true } =
      { handle := none, initialized := false } :=
  ⟨C9.1 2 initialState rfl,
    (C9.2.2.1 { handle := some 3, initialized := true } rfl).1⟩

/-- Claim C10: every transcription parameter profile — Default, WithPrompt
with any prompt, Realtime — sets translation off and the language to
`"en"`, whatever the engine default bundle and the caller-supplied prompt
are; no caller input reaches any other parameter-profile field. -/
theorem C10 :
    ∀ (d : WhisperFullParams) (p : Option String),
    (defaultParams d).translate = false ∧ (defaultParams d).language = "en" ∧
    (withPromptParams d p).translate = false ∧
    (withPromptParams d p).language = "en" ∧
    (realtimeParams d).translate = false ∧ (realtimeParams d).language = "en" := by
  intro d p
  refine ⟨rfl, rfl, ?_, ?_, rfl, rfl⟩ <;>
    cases p with
    | none => rfl
    | some q =>
      simp only [withPromptParams]
      by_cases hq : 0 < q.utf8ByteSize <;> simp [hq]
